import Mathlib

/-!
Verification of the pigmentpoet color engine (Go sources) against its
natural-language specification.

Shallow embedding conventions:
* Go `uint8` channels are `Nat` values; conversions that truncate to `uint8`
  are modelled with `% 256` (Go integer-to-`uint8` conversion keeps the low
  8 bits).
* Go `float64` arithmetic in the color conversions is modelled exactly over
  `ℚ`.  Every concrete evaluation below is at inputs whose intermediate
  values are several orders of magnitude away from the rounding boundaries
  of `float64`, so the rational model and the floating-point code agree on
  the stated results.
* Go strings are `List Char` (with `String` wrappers mirroring the Go
  signatures).
* `fmt.Sscanf(hex, "%02x%02x%02x", ...)` is modelled by `parseHexByte`:
  each `%02x` verb skips leading spaces and consumes one or two hex digits
  (case-insensitive); on failure the remaining destination variables keep
  their zero values and the error is discarded, exactly as in the source.
-/

/-- RGB color with 8-bit channels (`Color` in color.go). -/
structure Color where
  R : Nat
  G : Nat
  B : Nat
deriving DecidableEq

/-- HSL color (`HSL` in color.go): H in degrees, S and L in percent. -/
structure HSL where
  H : ℚ
  S : ℚ
  L : ℚ
deriving DecidableEq

/-- One hex digit of `%x` scanning: `0`-`9`, `a`-`f`, `A`-`F`. -/
def hexDigitVal (c : Char) : Option Nat :=
  if '0' ≤ c ∧ c ≤ '9' then some (c.toNat - '0'.toNat)
  else if 'a' ≤ c ∧ c ≤ 'f' then some (c.toNat - 'a'.toNat + 10)
  else if 'A' ≤ c ∧ c ≤ 'F' then some (c.toNat - 'A'.toNat + 10)
  else none

/-- ASCII whitespace skipped by a `fmt` scanning verb. -/
def isSpaceChar (c : Char) : Bool :=
  c = ' ' ∨ c = '\t' ∨ c = '\n' ∨ c = '\r'

/-- One `%02x` verb of `fmt.Sscanf`: skip spaces, then read one or two hex
digits; `none` when no hex digit is available. Returns the value and the
unconsumed input. -/
def parseHexByte (cs : List Char) : Option (Nat × List Char) :=
  match cs.dropWhile isSpaceChar with
  | [] => none
  | c1 :: rest =>
    match hexDigitVal c1 with
    | none => none
    | some d1 =>
      match rest with
      | [] => some (d1, [])
      | c2 :: rest2 =>
        match hexDigitVal c2 with
        | none => some (d1, rest)
        | some d2 => some (16 * d1 + d2, rest2)

/-- Source `hexToRGB` from color.go on the underlying character list: strip one
leading `#`, then `fmt.Sscanf(hex, "%02x%02x%02x", &r, &g, &b)` with the
error ignored — channels that fail to scan keep their zero values. -/
def hexToRGBL (hex : List Char) : Color :=
  let hex := match hex with
    | '#' :: t => t
    | t => t
  match parseHexByte hex with
  | none => ⟨0, 0, 0⟩
  | some (r, s1) =>
    match parseHexByte s1 with
    | none => ⟨r, 0, 0⟩
    | some (g, s2) =>
      match parseHexByte s2 with
      | none => ⟨r, g, 0⟩
      | some (b, _) => ⟨r, g, b⟩

/-- Source `hexToRGB` from color.go. -/
def hexToRGB (hex : String) : Color :=
  hexToRGBL hex.toList

/-- Uppercase hex digit, as printed by `%X`. -/
def toHexDigit (d : Nat) : Char :=
  if d < 10 then Char.ofNat (48 + d) else Char.ofNat (55 + d)

/-- Source `%02X` applied to a byte value (< 256): exactly two uppercase hex
digits. -/
def formatHexByte (n : Nat) : List Char :=
  [toHexDigit (n / 16), toHexDigit (n % 16)]

/-- Source `fmt.Sprintf("#%02X%02X%02X", c.R, c.G, c.B)` from bot/palette/palette.go
on the underlying character list. -/
def formatHexL (c : Color) : List Char :=
  '#' :: (formatHexByte c.R ++ (formatHexByte c.G ++ formatHexByte c.B))

/-- Source `fmt.Sprintf("#%02X%02X%02X", c.R, c.G, c.B)` from bot/palette/palette.go. -/
def formatHex (c : Color) : String :=
  ⟨formatHexL c⟩

theorem hexDigit_spec : ∀ d : Fin 16,
    hexDigitVal (toHexDigit d.val) = some d.val ∧
    isSpaceChar (toHexDigit d.val) = false := by decide

theorem parse_formatHexByte (n : Nat) (h : n < 256) (rest : List Char) :
    parseHexByte (formatHexByte n ++ rest) = some (n, rest) := by
  have h1 : n / 16 < 16 := by omega
  have h2 : n % 16 < 16 := Nat.mod_lt _ (by norm_num)
  obtain ⟨e1, s1⟩ := hexDigit_spec ⟨n / 16, h1⟩
  obtain ⟨e2, s2⟩ := hexDigit_spec ⟨n % 16, h2⟩
  have hmod : 16 * (n / 16) + n % 16 = n := Nat.div_add_mod n 16
  simp [formatHexByte, parseHexByte, List.dropWhile, e1, e2, s1, s2, hmod]

theorem parse_formatHexByte_last (n : Nat) (h : n < 256) :
    parseHexByte (formatHexByte n) = some (n, []) := by
  simpa using parse_formatHexByte n h []

/-- C8: for every RGB color (all channels < 256), parsing the formatted
uppercase `#RRGGBB` hex string yields the color back exactly:
`parse_hex(format_hex(c)) == c`. -/
theorem c8_roundtrip (c : Color) (hR : c.R < 256) (hG : c.G < 256)
    (hB : c.B < 256) : hexToRGB (formatHex c) = c := by
  show hexToRGBL (formatHexL c) = c
  simp only [hexToRGBL, formatHexL, parse_formatHexByte c.R hR,
    parse_formatHexByte c.G hG, parse_formatHexByte_last c.B hB]

/-- Witness for C8 at the concrete color (51, 102, 153). -/
theorem c8_witness : hexToRGB (formatHex ⟨51, 102, 153⟩) = ⟨51, 102, 153⟩ :=
  c8_roundtrip ⟨51, 102, 153⟩ (by decide) (by decide) (by decide)

/-! ### Float helpers modelled over `ℚ` -/

/-- Source `math.Trunc` / Go float-to-int truncation toward zero, on `ℚ`. -/
def truncQ (q : ℚ) : ℤ :=
  q.num.tdiv (q.den : ℤ)

/-- Source `math.Round`: round to the nearest integer, half away from zero. -/
def roundQ (q : ℚ) : ℤ :=
  if 0 ≤ q then truncQ (q + 1/2) else -truncQ (-q + 1/2)

/-- Source `uint8(math.Round(x))`: Go keeps the low 8 bits for in-range values;
out-of-range float-to-integer conversion is implementation-specific in Go
and is modelled as reduction mod 256 (no theorem below evaluates it outside
[0, 255]). -/
def uint8OfQ (q : ℚ) : Nat :=
  ((roundQ q) % 256).toNat

/-- Source `math.Max` on the values the code feeds it (never NaN/Inf). -/
def mathMax (x y : ℚ) : ℚ :=
  if x < y then y else x

/-- Source `math.Min` on the values the code feeds it (never NaN/Inf). -/
def mathMin (x y : ℚ) : ℚ :=
  if y < x then y else x

/-- Source `math.Mod(x, y)`: remainder with the sign of `x` (truncated division). -/
def mathMod (x y : ℚ) : ℚ :=
  x - y * (truncQ (x / y) : ℚ)

/-! ### RGB ↔ HSL conversions (color.go) -/

/-- Source `rgbToHSL` from color.go, translated statement by statement.  Note the
source computes `s = d / (2 - max - min)` and then, when `l > 0.5`,
overwrites it with `d / (2 - (max + min))` — the two branches are the same
expression; that duplication is preserved here verbatim. -/
def rgbToHSL (rgb : Color) : HSL :=
  let r : ℚ := (rgb.R : ℚ) / 255
  let g : ℚ := (rgb.G : ℚ) / 255
  let b : ℚ := (rgb.B : ℚ) / 255
  let mx := mathMax (mathMax r g) b
  let mn := mathMin (mathMin r g) b
  let l := (mx + mn) / 2
  if mx = mn then
    ⟨0 * 360, 0 * 100, l * 100⟩
  else
    let d := mx - mn
    let s := d / (2 - mx - mn)
    let s := if l > 1/2 then d / (2 - (mx + mn)) else s
    let h :=
      if mx = r then (if g < b then (g - b) / d + 6 else (g - b) / d)
      else if mx = g then (b - r) / d + 2
      else (r - g) / d + 4
    let h := h / 6
    ⟨h * 360, s * 100, l * 100⟩

/-- Source `hueToRGB` from color.go. -/
def hueToRGB (p q t : ℚ) : ℚ :=
  let t := if t < 0 then t + 1 else t
  let t := if t > 1 then t - 1 else t
  if t < 1/6 then p + (q - p) * 6 * t
  else if t < 1/2 then q
  else if t < 2/3 then p + (q - p) * (2/3 - t) * 6
  else p

/-- Source `hslToRGB` from color.go: each channel is `uint8(math.Round(x * 255))`. -/
def hslToRGB (hsl : HSL) : Color :=
  let h := hsl.H / 360
  let s := hsl.S / 100
  let l := hsl.L / 100
  if s = 0 then
    ⟨uint8OfQ (l * 255), uint8OfQ (l * 255), uint8OfQ (l * 255)⟩
  else
    let q := if l < 1/2 then l * (1 + s) else l + s - l * s
    let p := 2 * l - q
    ⟨uint8OfQ (hueToRGB p q (h + 1/3) * 255),
     uint8OfQ (hueToRGB p q h * 255),
     uint8OfQ (hueToRGB p q (h - 1/3) * 255)⟩

/-- Source `rotateHue` from color.go: `math.Mod(h + degrees, 360)` with negative
correction. -/
def rotateHue (hsl : HSL) (degrees : ℚ) : HSL :=
  let h := mathMod (hsl.H + degrees) 360
  let h := if h < 0 then h + 360 else h
  ⟨h, hsl.S, hsl.L⟩

/-- C2 concrete evaluation (HSL round trip at H=0, S=100, L=25): the code
maps the HSL value to RGB (128,0,0) and back to an HSL whose saturation is
6400/191 ≈ 33.5, which differs from the original S=100 by ≈ 66.5 > 1 while
the result is far from achromatic (S ≥ 5); with the standard formula
`s = d/(max+min)` for `l ≤ 0.5` the saturation would round-trip exactly. -/
theorem hslToRGB_dark_red : hslToRGB ⟨0, 100, 25⟩ = ⟨128, 0, 0⟩ := by
  with_unfolding_all rfl

theorem rgbToHSL_dark_red : rgbToHSL ⟨128, 0, 0⟩ = ⟨0, 6400/191, 1280/51⟩ := by
  with_unfolding_all rfl

/-- C2 concrete evaluation (HSL round trip at H=0, S=100, L=25): the code
maps the HSL value to RGB (128,0,0) and back to an HSL whose saturation is
6400/191 ≈ 33.5, which differs from the original S=100 by ≈ 66.5 > 1 while
the result is far from achromatic (S ≥ 5); with the standard formula
`s = d/(max+min)` for `l ≤ 0.5` the saturation would round-trip exactly. -/
theorem c2_eval :
    hslToRGB ⟨0, 100, 25⟩ = ⟨128, 0, 0⟩ ∧
    rgbToHSL ⟨128, 0, 0⟩ = ⟨0, 6400/191, 1280/51⟩ ∧
    ¬ |(rgbToHSL (hslToRGB ⟨0, 100, 25⟩)).S - 100| ≤ 1 ∧
    5 ≤ (rgbToHSL (hslToRGB ⟨0, 100, 25⟩)).S := by
  refine ⟨hslToRGB_dark_red, rgbToHSL_dark_red, ?_, ?_⟩ <;>
    rw [hslToRGB_dark_red, rgbToHSL_dark_red] <;> norm_num [abs_le]

/-! ### Harmonic palette generation (color.go)

The generator methods ignore their `ColorMatcher` receiver, so they are
plain functions here.  Go float literals `0.8`, `1.2`, … are the exact
rationals 4/5, 6/5, …; the nearest-`float64` differences (≈ 1e-16) are far
below anything the evaluated theorems observe. -/

/-- Source `complementaryPalette` from color.go. -/
def complementaryPalette (base : HSL) : List Color :=
  let complement := rotateHue base 180
  let color2 : HSL := ⟨base.H, base.S * (8/10), base.L * (12/10)⟩
  let color3 : HSL := ⟨complement.H, complement.S * (8/10), complement.L * (12/10)⟩
  let color4 : HSL := ⟨base.H, base.S * (6/10), base.L * (14/10)⟩
  [hslToRGB base, hslToRGB color2, hslToRGB color3, hslToRGB color4,
   hslToRGB complement]

/-- Source `triadicPalette` from color.go. -/
def triadicPalette (base : HSL) : List Color :=
  let color2 := rotateHue base 120
  let color3 := rotateHue base 240
  let color4 := rotateHue base 60
  let color5 := rotateHue base 180
  [hslToRGB base, hslToRGB color4, hslToRGB color2, hslToRGB color5,
   hslToRGB color3]

/-- Source `analogousPalette` from color.go (the `variations` parameter is unused,
as in the source). -/
def analogousPalette (base : HSL) (variations : Int) : List Color :=
  let angleStep : ℚ := 15
  [hslToRGB base,
   hslToRGB (rotateHue base (-angleStep)),
   hslToRGB (rotateHue base (-angleStep * 2)),
   hslToRGB (rotateHue base angleStep),
   hslToRGB (rotateHue base (angleStep * 2))]

/-- Source `splitComplementaryPalette` from color.go. -/
def splitComplementaryPalette (base : HSL) : List Color :=
  let complement := rotateHue base 180
  let split1 := rotateHue complement (-30)
  let split2 := rotateHue complement 30
  let color4 : HSL := ⟨base.H, base.S * (8/10), base.L * (12/10)⟩
  let color5 : HSL := ⟨complement.H, complement.S * (8/10), complement.L * (12/10)⟩
  [hslToRGB base, hslToRGB color4, hslToRGB split1, hslToRGB split2,
   hslToRGB color5]

/-- Source `tetradicPalette` from color.go. -/
def tetradicPalette (base : HSL) : List Color :=
  let color2 := rotateHue base 90
  let color3 := rotateHue base 180
  let color4 := rotateHue base 270
  let color5 : HSL := ⟨base.H, base.S * (8/10), base.L * (12/10)⟩
  [hslToRGB base, hslToRGB color2, hslToRGB color3, hslToRGB color4,
   hslToRGB color5]

/-- Source `monochromaticPalette` from color.go (the `variations` parameter is
unused, as in the source). -/
def monochromaticPalette (base : HSL) (variations : Int) : List Color :=
  [hslToRGB base,
   hslToRGB ⟨base.H, mathMax 0 (base.S * (8/10)), mathMin 100 (base.L * (12/10))⟩,
   hslToRGB ⟨base.H, mathMax 0 (base.S * (6/10)), mathMin 100 (base.L * (14/10))⟩,
   hslToRGB ⟨base.H, mathMin 100 (base.S * (12/10)), mathMax 0 (base.L * (8/10))⟩,
   hslToRGB ⟨base.H, mathMin 100 (base.S * (14/10)), mathMax 0 (base.L * (6/10))⟩]

/-- Source `PaletteType` from color.go: an integer-typed enumeration. -/
abbrev PaletteType := Int

/-- Source `Complementary` (iota value 0). -/
def Complementary : PaletteType := 0

/-- Source `Triadic`. -/
def Triadic : PaletteType := 1

/-- Source `Analogous`. -/
def Analogous : PaletteType := 2

/-- Source `SplitComplementary`. -/
def SplitComplementary : PaletteType := 3

/-- Source `Tetradic`. -/
def Tetradic : PaletteType := 4

/-- Source `Monochromatic`. -/
def Monochromatic : PaletteType := 5

/-- Source `(m *ColorMatcher) GeneratePalette` from color.go; the receiver is
unused by every branch. -/
def GeneratePalette (baseHex : String) (paletteType : PaletteType)
    (variations : Int) : List Color :=
  let baseColor := hexToRGB baseHex
  let baseHSL := rgbToHSL baseColor
  if paletteType = Complementary then complementaryPalette baseHSL
  else if paletteType = Triadic then triadicPalette baseHSL
  else if paletteType = Analogous then analogousPalette baseHSL variations
  else if paletteType = SplitComplementary then splitComplementaryPalette baseHSL
  else if paletteType = Tetradic then tetradicPalette baseHSL
  else if paletteType = Monochromatic then monochromaticPalette baseHSL variations
  else [baseColor]

/-- The base hex string of spec scenario 2. -/
def base336699 : String := "#336699"

theorem hexToRGB_336699 : hexToRGB base336699 = ⟨51, 102, 153⟩ := by
  with_unfolding_all rfl

theorem rgbToHSL_336699 : rgbToHSL ⟨51, 102, 153⟩ = ⟨210, 100/3, 40⟩ := by
  with_unfolding_all rfl

theorem hslToRGB_336699 : hslToRGB ⟨210, 100/3, 40⟩ = ⟨68, 102, 136⟩ := by
  with_unfolding_all rfl

theorem generatePalette_336699 :
    GeneratePalette base336699 Complementary 5 =
      complementaryPalette ⟨210, 100/3, 40⟩ := by
  simp only [GeneratePalette, hexToRGB_336699, rgbToHSL_336699]
  simp

/-- C1 concrete evaluation: for base `#336699` under the Complementary rule
the palette has 5 entries, but element 0 is (68,102,136), not
`parse_hex("#336699")` = (51,102,153): the code computes element 0 as
`hslToRGB(rgbToHSL(base))`, and the broken saturation branch of `rgbToHSL`
makes that round trip move the color. -/
theorem c1_eval :
    (GeneratePalette base336699 Complementary 5).length = 5 ∧
    hexToRGB base336699 = ⟨51, 102, 153⟩ ∧
    (GeneratePalette base336699 Complementary 5).head? = some ⟨68, 102, 136⟩ ∧
    (GeneratePalette base336699 Complementary 5).head? ≠
      some (hexToRGB base336699) := by
  rw [generatePalette_336699, hexToRGB_336699]
  refine ⟨by simp [complementaryPalette], rfl, ?_, ?_⟩ <;>
    simp [complementaryPalette, hslToRGB_336699]

/-- C10: for every `PaletteType` value other than the six declared
constants, `GeneratePalette` falls through to the default branch and
returns the one-element list holding only the parsed base color. -/
theorem c10_default (baseHex : String) (pt : PaletteType) (v : Int)
    (h0 : pt ≠ Complementary) (h1 : pt ≠ Triadic) (h2 : pt ≠ Analogous)
    (h3 : pt ≠ SplitComplementary) (h4 : pt ≠ Tetradic)
    (h5 : pt ≠ Monochromatic) :
    GeneratePalette baseHex pt v = [hexToRGB baseHex] := by
  unfold GeneratePalette
  simp [h0, h1, h2, h3, h4, h5]

/-- A hex string for the C10 witness. -/
def base112233 : String := "#112233"

/-- Witness for C10 at the out-of-range tag 6. -/
theorem c10_witness :
    GeneratePalette base112233 6 5 = [hexToRGB base112233] :=
  c10_default base112233 6 5 (by decide) (by decide) (by decide) (by decide)
    (by decide) (by decide)

/-! ### Named-color matcher (color.go)

The `ColorMatcher` caches each entry's RGB/HSL at construction by applying
exactly `hexToRGB`/`rgbToHSL` to the entry's hex; the cache is modelled by
recomputing those same applications at lookup.  Go's `minDiff :=
math.MaxFloat64` sentinel is modelled by `Option ℚ` with `none` standing
for `MaxFloat64`: every actual difference value is bounded by
3·255² + 2·(360² + 100² + 100²) < 10⁶ < MaxFloat64, so the first entry
always replaces the sentinel, as in the source. -/

/-- Source `ColorName` from color.go. -/
structure ColorName where
  Hex : List Char
  Name : List Char
deriving DecidableEq

/-- Source `colorDifferenceRGB` from color.go (`math.Pow(x, 2)` is squaring). -/
def colorDifferenceRGB (c1 c2 : Color) : ℚ :=
  ((c1.R : ℚ) - (c2.R : ℚ)) * ((c1.R : ℚ) - (c2.R : ℚ)) +
  ((c1.G : ℚ) - (c2.G : ℚ)) * ((c1.G : ℚ) - (c2.G : ℚ)) +
  ((c1.B : ℚ) - (c2.B : ℚ)) * ((c1.B : ℚ) - (c2.B : ℚ))

/-- Source `colorDifferenceHSL` from color.go. -/
def colorDifferenceHSL (c1 c2 : HSL) : ℚ :=
  (c1.H - c2.H) * (c1.H - c2.H) +
  (c1.S - c2.S) * (c1.S - c2.S) +
  (c1.L - c2.L) * (c1.L - c2.L)

/-- Source `(m *ColorMatcher) FindClosestColor` from color.go.  The matcher state
is its entry list; the second component is the returned `error`, which the
source fixes to `nil` (`return closest, nil`). -/
def FindClosestColor (colors : List ColorName) (hex : List Char) :
    ColorName × Option (List Char) :=
  let targetRGB := hexToRGBL hex
  let targetHSL := rgbToHSL targetRGB
  let res := colors.foldl
    (fun acc c =>
      let cachedRGB := hexToRGBL c.Hex
      let cachedHSL := rgbToHSL cachedRGB
      let totalDiff := colorDifferenceRGB targetRGB cachedRGB +
        2 * colorDifferenceHSL targetHSL cachedHSL
      match acc.2 with
      | none => (c, some totalDiff)
      | some minDiff =>
        if totalDiff < minDiff then (c, some totalDiff) else acc)
    ((⟨[], []⟩ : ColorName), (none : Option ℚ))
  (res.1, none)

/-- A one-entry dictionary for the C6 counterexample. -/
def matcherRed : List ColorName :=
  [⟨"#FF0000".toList, "Red".toList⟩]

/-- The malformed query of the C6 counterexample. -/
def badHexQuery : List Char := "GGGGGG".toList

/-- C6 counterexample: on the six-character non-hex input `GGGGGG`,
`hexToRGB` does not fail — `fmt.Sscanf`'s error is discarded and the
zero-value color (0,0,0) is returned — and `FindClosestColor` returns a
dictionary entry together with a `nil` error instead of a `BadHex`
failure. -/
theorem c6_counterexample :
    hexToRGBL badHexQuery = ⟨0, 0, 0⟩ ∧
    FindClosestColor matcherRed badHexQuery =
      (⟨"#FF0000".toList, "Red".toList⟩, none) := by
  with_unfolding_all decide

/-- C6 amended: `parse_hex` never fails (malformed channels keep their zero
values), and `FindClosestColor` returns a `nil` error for every dictionary
and every query string. -/
theorem c6_amended (colors : List ColorName) (hex : List Char) :
    (FindClosestColor colors hex).2 = none := by
  simp [FindClosestColor]

/-! ### Median-cut palette extraction (color.go, the normative variant)

An image is modelled as its row-major pixel sequence; `RGBA()` yields
16-bit channels (0–65535) plus alpha.  `sort.Slice` sorts by a strict
channel comparison and its order among equal keys is unspecified; it is
modelled by a stable insertion sort with the same comparator — every
concrete evaluation below ties only between identical colors, where the
choice is immaterial.  In the source, boxes produced by `splitBox` hold
sub-slices aliasing the parent's backing array; boxes here own their sample
lists (the spec's "two fresh boxes without aliasing" view).  Aliasing is
observable only when a retained parent box is re-sorted into a different
permutation, which happens in none of the evaluations below.  The `for
len(boxes) < targetColors` loop grows `boxes` by exactly one element per
iteration, so running the fuelled loop with `targetColors` units of fuel
from the initial one-box list performs every iteration the source would. -/

/-- One image pixel as seen through `image.Image.At(x, y).RGBA()`. -/
structure Pixel where
  r : Nat
  g : Nat
  b : Nat
  a : Nat
deriving DecidableEq

/-- The pixel-enumeration phase of `ExtractPalette`: keep pixels with
`a > 0` and take the high byte of each 16-bit channel
(`uint8(r >> 8)`). -/
def samplePixels (img : List Pixel) : List Color :=
  img.filterMap (fun p =>
    if 0 < p.a then some ⟨p.r / 256 % 256, p.g / 256 % 256, p.b / 256 % 256⟩
    else none)

/-- Source `Box` from color.go. -/
structure Box where
  rMin : Int
  rMax : Int
  gMin : Int
  gMax : Int
  bMin : Int
  bMax : Int
  colors : List Color
deriving DecidableEq

/-- Source `(b *Box) volume` from color.go. -/
def Box.volume (b : Box) : Int :=
  (b.rMax - b.rMin + 1) * (b.gMax - b.gMin + 1) * (b.bMax - b.bMin + 1)

/-- Source `createBox` from color.go: the zero box for an empty sample list,
otherwise per-channel min/max bounds folded from 255/0 seeds. -/
def createBox (colors : List Color) : Box :=
  match colors with
  | [] => ⟨0, 0, 0, 0, 0, 0, []⟩
  | _ =>
    colors.foldl
      (fun box c =>
        ⟨min box.rMin (c.R : Int), max box.rMax (c.R : Int),
         min box.gMin (c.G : Int), max box.gMax (c.G : Int),
         min box.bMin (c.B : Int), max box.bMax (c.B : Int), box.colors⟩)
      ⟨255, 0, 255, 0, 255, 0, colors⟩

/-- Source `findBoxToSplit` from color.go: first box whose volume strictly exceeds
every earlier maximum, starting from `maxVolume = 0`. -/
def findBoxToSplit (boxes : List Box) : Option Box :=
  (boxes.foldl
    (fun acc box =>
      if box.volume > acc.2 then (some box, box.volume) else acc)
    ((none : Option Box), (0 : Int))).1

/-- Stable insertion of a color into a key-sorted list (strict-`<`
comparator of `sort.Slice`). -/
def insertByKey (key : Color → Nat) (c : Color) : List Color → List Color
  | [] => [c]
  | d :: rest =>
    if key c < key d then c :: d :: rest else d :: insertByKey key c rest

/-- Source `sort.Slice(box.colors, …)` by one channel. -/
def sortByKey (key : Color → Nat) : List Color → List Color
  | [] => []
  | c :: rest => insertByKey key c (sortByKey key rest)

/-- Source `splitBox` from color.go: pick the longest channel range, sort by it,
split at the median index. -/
def splitBox (box : Box) : Box × Box :=
  let rRange := box.rMax - box.rMin
  let gRange := box.gMax - box.gMin
  let bRange := box.bMax - box.bMin
  let key : Color → Nat :=
    if rRange ≥ gRange ∧ rRange ≥ bRange then fun c => c.R
    else if gRange ≥ rRange ∧ gRange ≥ bRange then fun c => c.G
    else fun c => c.B
  let sorted := sortByKey key box.colors
  let median := sorted.length / 2
  (createBox (sorted.take median), createBox (sorted.drop median))

/-- One iteration of the splitting loop in `ExtractPalette`:
`boxes = append(boxes[:len(boxes)-1], box1, box2)` — the code drops the
LAST box of the list and appends the halves of the box chosen by
`findBoxToSplit`, whatever its position. -/
def splitStep (boxes : List Box) : Option (List Box) :=
  match findBoxToSplit boxes with
  | none => none
  | some boxToSplit =>
    let halves := splitBox boxToSplit
    some (boxes.dropLast ++ [halves.1, halves.2])

/-- The `for len(boxes) < targetColors` loop of `ExtractPalette`, with
explicit fuel (see the section comment for fuel adequacy). -/
def splitLoop (targetColors : Int) : Nat → List Box → List Box
  | 0, boxes => boxes
  | fuel + 1, boxes =>
    if (boxes.length : Int) < targetColors then
      match splitStep boxes with
      | none => boxes
      | some boxes2 => splitLoop targetColors fuel boxes2
    else boxes

/-- Source `averageColor` from color.go: integer-truncated channel means,
converted to `uint8`. -/
def averageColor (colors : List Color) : Color :=
  match colors with
  | [] => ⟨0, 0, 0⟩
  | _ =>
    let rSum := colors.foldl (fun s c => s + c.R) 0
    let gSum := colors.foldl (fun s c => s + c.G) 0
    let bSum := colors.foldl (fun s c => s + c.B) 0
    let count := colors.length
    ⟨rSum / count % 256, gSum / count % 256, bSum / count % 256⟩

/-- Squared RGB Euclidean distance.  The source's `colorDistance` takes a
square root and is compared against the threshold 60; both sides being
nonnegative, `dist < 60` is equivalent to `distSq < 3600`, so the filter is
modelled on squares with threshold 3600 = 60². -/
def colorDistSq (c1 c2 : Color) : Int :=
  let dr := (c1.R : Int) - (c2.R : Int)
  let dg := (c1.G : Int) - (c2.G : Int)
  let db := (c1.B : Int) - (c2.B : Int)
  dr * dr + dg * dg + db * db

/-- The per-color loop of `filterSimilarColors`: keep a candidate iff no
already-kept color is strictly within the threshold. -/
def filterAux (thresholdSq : Int) : List Color → List Color → List Color
  | [], result => result
  | c :: rest, result =>
    if ∀ e ∈ result, thresholdSq ≤ colorDistSq c e then
      filterAux thresholdSq rest (result ++ [c])
    else
      filterAux thresholdSq rest result

/-- Source `filterSimilarColors` from color.go (threshold squared: 3600 = 60²). -/
def filterSimilarColors (colors : List Color) (thresholdSq : Int) :
    List Color :=
  match colors with
  | [] => colors
  | [_] => colors
  | c :: rest => filterAux thresholdSq rest [c]

/-- Source `ExtractPalette` from color.go (median-cut variant): clamp the count to
[2,256], sample the pixels, split boxes up to `2·n`, average each box,
filter similar colors at threshold 60, and truncate to the clamped count. -/
def ExtractPalette (img : List Pixel) (numColors : Int) : List Color :=
  let numColors := if numColors < 2 then 2 else numColors
  let numColors := if numColors > 256 then 256 else numColors
  let colors := samplePixels img
  let box := createBox colors
  let targetColors := numColors * 2
  let boxes := splitLoop targetColors targetColors.toNat [box]
  let palette := boxes.map (fun b => averageColor b.colors)
  let palette := filterSimilarColors palette 3600
  if (palette.length : Int) > numColors then palette.take numColors.toNat
  else palette

theorem colorDistSq_comm (a b : Color) : colorDistSq a b = colorDistSq b a := by
  simp only [colorDistSq]
  ring

theorem filterAux_pairwise (t : Int) :
    ∀ cs acc : List Color,
      acc.Pairwise (fun c1 c2 => t ≤ colorDistSq c1 c2) →
      (filterAux t cs acc).Pairwise (fun c1 c2 => t ≤ colorDistSq c1 c2) := by
  intro cs
  induction cs with
  | nil =>
    intro acc h
    simpa [filterAux] using h
  | cons c rest ih =>
    intro acc h
    rw [filterAux]
    by_cases hc : ∀ e ∈ acc, t ≤ colorDistSq c e
    · rw [if_pos hc]
      refine ih (acc ++ [c]) (List.pairwise_append.mpr ⟨h, ?_, ?_⟩)
      · simp
      · intro a ha b hb
        simp only [List.mem_singleton] at hb
        subst hb
        rw [colorDistSq_comm]
        exact hc a ha
    · rw [if_neg hc]
      exact ih acc h

theorem filterSimilarColors_pairwise (cs : List Color) (t : Int) :
    (filterSimilarColors cs t).Pairwise (fun c1 c2 => t ≤ colorDistSq c1 c2) := by
  match cs with
  | [] => simp [filterSimilarColors]
  | [c] => simp [filterSimilarColors]
  | c :: d :: rest =>
    show (filterAux t (d :: rest) [c]).Pairwise _
    exact filterAux_pairwise t (d :: rest) [c] (by simp)

theorem extract_core (pal : List Color) (k : Int) (h2 : 2 ≤ k)
    (hp : pal.Pairwise fun c1 c2 => 3600 ≤ colorDistSq c1 c2) :
    (((if (pal.length : Int) > k then pal.take k.toNat else pal).length : Int) ≤ k) ∧
    ((if (pal.length : Int) > k then pal.take k.toNat else pal).Pairwise
      fun c1 c2 => 3600 ≤ colorDistSq c1 c2) := by
  constructor
  · split_ifs with h
    · rw [List.length_take]
      have hmin := Nat.min_le_left k.toNat pal.length
      omega
    · omega
  · split_ifs
    · exact List.Pairwise.sublist (List.take_sublist _ _) hp
    · exact hp

/-- C3 amended: `ExtractPalette` returns at most `max n 2` colors (the
requested count is clamped up to 2 before use), and any two colors of the
result are at squared RGB distance ≥ 3600, i.e. Euclidean distance ≥ 60 —
the latter holds unconditionally (vacuously for results shorter than
two). -/
theorem c3_amended (img : List Pixel) (n : Int) :
    ((ExtractPalette img n).length : Int) ≤ max n 2 ∧
    (ExtractPalette img n).Pairwise (fun c1 c2 => 3600 ≤ colorDistSq c1 c2) := by
  unfold ExtractPalette
  simp only []
  set k : Int := if (if n < 2 then 2 else n) > 256 then 256
    else (if n < 2 then 2 else n) with hkdef
  have h2 : (2 : Int) ≤ k := by
    rw [hkdef]
    split_ifs <;> omega
  have hkm : k ≤ max n 2 := by
    rw [hkdef]
    rcases max_cases n 2 with ⟨hm, _⟩ | ⟨hm, _⟩ <;> rw [hm] <;> split_ifs <;> omega
  refine ⟨le_trans ?_ hkm, ?_⟩
  · exact (extract_core _ k h2 (filterSimilarColors_pairwise _ _)).1
  · exact (extract_core _ k h2 (filterSimilarColors_pairwise _ _)).2

/-- The two-region image of the C3 counterexample: four opaque pixels with
8-bit reds 0, 80, 160, 255. -/
def imgC3 : List Pixel :=
  [⟨0, 0, 0, 65535⟩, ⟨20480, 0, 0, 65535⟩, ⟨40960, 0, 0, 65535⟩,
   ⟨65280, 0, 0, 65535⟩]

/-- C3 counterexample: with requested count `n = 1` (below the clamp
minimum 2) the extractor returns 2 colors, so "at most n colors" fails as
stated. -/
theorem c3_counterexample :
    ExtractPalette imgC3 1 = [⟨40, 0, 0⟩, ⟨160, 0, 0⟩] ∧
    ¬ ((ExtractPalette imgC3 1).length ≤ 1) := by decide

/-- The C4 failing image: a single fully transparent pixel. -/
def imgC4 : List Pixel := [⟨10, 20, 30, 0⟩]

/-- C4 evaluation at the failing input: the image has no non-transparent
pixel (the sample list is empty), yet `ExtractPalette` returns the
one-element list [(0,0,0)] — the empty zero-box is split into empty boxes
whose average is black — instead of the empty list the spec requires. -/
theorem c4_eval :
    samplePixels imgC4 = [] ∧
    ExtractPalette imgC4 5 = [⟨0, 0, 0⟩] ∧
    ExtractPalette imgC4 5 ≠ [] := by decide

/-- The C5 failing pixels: 8-bit reds 0, 10, 200, 200. -/
def pxC5 : List Pixel :=
  [⟨0, 0, 0, 65535⟩, ⟨2560, 0, 0, 65535⟩, ⟨51200, 0, 0, 65535⟩,
   ⟨51200, 0, 0, 65535⟩]

/-- The larger-volume box reached after the first split of `pxC5`. -/
def boxA : Box := createBox [⟨0, 0, 0⟩, ⟨10, 0, 0⟩]

/-- The smaller-volume box reached after the first split of `pxC5`. -/
def boxB : Box := createBox [⟨200, 0, 0⟩, ⟨200, 0, 0⟩]

/-- C5 evaluation at the failing input: from the reachable box list
[boxA, boxB] the loop selects `boxA` (volume 11 > 1), but the iteration
drops the LAST box — the resulting list still contains the selected `boxA`
and has lost `boxB` (and with it every red-200 sample), instead of being
the previous list with the selected box removed and its halves added. -/
theorem c5_eval :
    splitStep [createBox (samplePixels pxC5)] = some [boxA, boxB] ∧
    findBoxToSplit [boxA, boxB] = some boxA ∧
    splitStep [boxA, boxB] =
      some [boxA, createBox [⟨0, 0, 0⟩], createBox [⟨10, 0, 0⟩]] ∧
    boxA ∈ [boxA, createBox [⟨0, 0, 0⟩], createBox [⟨10, 0, 0⟩]] ∧
    ¬ boxB ∈ [boxA, createBox [⟨0, 0, 0⟩], createBox [⟨10, 0, 0⟩]] := by decide

/-- C7: the median-cut `ExtractPalette` consults no random source — it is a
pure function of the sampled image and the requested count, so two runs on
equal inputs return equal palettes. -/
theorem c7_deterministic (img1 img2 : List Pixel) (n1 n2 : Int)
    (h1 : img1 = img2) (h2 : n1 = n2) :
    ExtractPalette img1 n1 = ExtractPalette img2 n2 := by
  rw [h1, h2]

/-- A concrete image for the C7 witness. -/
def imgC7 : List Pixel := [⟨256, 512, 768, 65535⟩]

/-- Witness for C7: two runs on the same one-pixel image and count 3. -/
theorem c7_witness : ExtractPalette imgC7 3 = ExtractPalette imgC7 3 :=
  c7_deterministic imgC7 imgC7 3 3 rfl rfl

/-! ### Palette image rendering (image.go)

Only the panic-relevant structure of `GeneratePaletteImage` is observable
here: font loading and parsing of the embedded assets always succeed,
drawing is abstracted to a trace of operations, and text measurement /
wrapping (which depend on font metrics but touch no slice out of bounds)
are not traced in detail.  What is mirrored exactly is the control flow of
the swatch loop: for every index `i < len(Colors)` the source evaluates
`hexText := cfg.HexCodes[i]` unconditionally — before and regardless of the
`ShowHexCodes` flag — while `cfg.Names[i]` is read only under
`ShowNames && i < len(cfg.Names)`.  A Go out-of-range index panics; that is
the `panic` result. -/

/-- An abstracted drawing operation of the renderer. -/
inductive DrawOp where
  | rect (i : Nat) (c : Color)
  | hexLabel (i : Nat) (s : List Char)
  | nameLabel (i : Nat) (s : List Char)
deriving DecidableEq

/-- Source `PaletteImage` from image.go (the optional source image only changes
swatch geometry, which is not observable in this model). -/
structure PaletteImage where
  Colors : List Color
  Names : List (List Char)
  HexCodes : List (List Char)
  ShowHexCodes : Bool
  ShowNames : Bool

/-- Outcome of `GeneratePaletteImage`: an index-out-of-range panic, the
`"no colors provided"` error return, or a normal return with the trace of
draw operations. -/
inductive RenderResult where
  | panic
  | errNoColors
  | ok (ops : List DrawOp)
deriving DecidableEq

/-- The `for i, color := range cfg.Colors` loop of `GeneratePaletteImage`.
`cfg.HexCodes[i]` is read first in every iteration; `none` (out of range)
is the panic. -/
def swatchLoop (cfg : PaletteImage) : Nat → List Color → Option (List DrawOp)
  | _, [] => some []
  | i, c :: rest =>
    match cfg.HexCodes[i]? with
    | none => none
    | some hexText =>
      let hexText := match hexText with
        | '#' :: t => t
        | t => t
      let hexOps := if cfg.ShowHexCodes then [DrawOp.hexLabel i hexText] else []
      let nameOps :=
        if cfg.ShowNames then
          match cfg.Names[i]? with
          | some nm => [DrawOp.nameLabel i nm]
          | none => []
        else []
      (swatchLoop cfg (i + 1) rest).map
        (fun ops => DrawOp.rect i c :: (hexOps ++ nameOps ++ ops))

/-- Source `GeneratePaletteImage` from image.go: error return on an empty palette,
then the swatch loop. -/
def GeneratePaletteImage (cfg : PaletteImage) : RenderResult :=
  if cfg.Colors.length = 0 then RenderResult.errNoColors
  else
    match swatchLoop cfg 0 cfg.Colors with
    | none => RenderResult.panic
    | some ops => RenderResult.ok ops

theorem swatchLoop_none_iff (cfg : PaletteImage) :
    ∀ (cs : List Color) (i : Nat),
      swatchLoop cfg i cs = none ↔
        (cs ≠ [] ∧ cfg.HexCodes.length < i + cs.length) := by
  intro cs
  induction cs with
  | nil =>
    intro i
    simp [swatchLoop]
  | cons c rest ih =>
    intro i
    rw [swatchLoop]
    rcases hx : cfg.HexCodes[i]? with _ | hexText
    · have hlen : cfg.HexCodes.length ≤ i := by
        simpa using List.getElem?_eq_none_iff.mp hx
      simp only [List.length_cons]
      constructor
      · intro _
        exact ⟨by simp, by omega⟩
      · intro _
        trivial
    · have hlen : i < cfg.HexCodes.length := by
        by_contra hcon
        rw [List.getElem?_eq_none_iff.mpr (by omega)] at hx
        cases hx
      rcases hrec : swatchLoop cfg (i + 1) rest with _ | ops
      · obtain ⟨hne, hlt⟩ := (ih (i + 1)).mp hrec
        simp only [List.length_cons]
        constructor
        · intro _
          exact ⟨by simp, by omega⟩
        · intro _
          trivial
      · simp only [List.length_cons]
        constructor
        · intro hcon
          simp at hcon
        · intro hyp
          obtain ⟨hne, hlt⟩ := hyp
          exfalso
          have hrestne : rest ≠ [] := by
            intro hcon
            rw [hcon] at hlt
            simp only [List.length_nil] at hlt
            omega
          have hnone : swatchLoop cfg (i + 1) rest = none :=
            (ih (i + 1)).mpr ⟨hrestne, by omega⟩
          rw [hnone] at hrec
          cases hrec

/-- C9: `GeneratePaletteImage` panics exactly when the `HexCodes` list is
shorter than the `Colors` list — independently of `ShowHexCodes`, because
`cfg.HexCodes[i]` is read for every swatch index before the flag is
consulted; in particular a `Names` list shorter than `Colors` never causes
a panic, since name drawing is guarded by `i < len(cfg.Names)`. -/
theorem c9_panic_iff (cfg : PaletteImage) :
    GeneratePaletteImage cfg = RenderResult.panic ↔
      cfg.HexCodes.length < cfg.Colors.length := by
  unfold GeneratePaletteImage
  split_ifs with hempty
  · constructor
    · intro hcon
      cases hcon
    · intro hlt
      exact absurd hlt (by omega)
  · rcases hloop : swatchLoop cfg 0 cfg.Colors with _ | ops
    · have hiff := (swatchLoop_none_iff cfg cfg.Colors 0).mp hloop
      simpa using hiff.2
    · have hnot : ¬ (cfg.Colors ≠ [] ∧
          cfg.HexCodes.length < 0 + cfg.Colors.length) := by
        intro hcon
        have hres := (swatchLoop_none_iff cfg cfg.Colors 0).mpr hcon
        rw [hloop] at hres
        cases hres
      constructor
      · intro hcon
        simp at hcon
      · intro hlt
        exfalso
        apply hnot
        refine ⟨?_, by omega⟩
        intro hcon
        rw [hcon] at hlt
        simp at hlt
